import Mathlib

/-!
Verification of the wysknd-aws-lambda handler-wrapper utility.

This file gives a shallow embedding of the core of the repository:

* `resolveAlias` — `HandlerWrapper._initAlias` (lib/handler-wrapper.js):
  derives the lambda alias from the invocation arn.
* `wrapValidate` — the argument validation performed by `HandlerWrapper.wrap`.
* `wrapInvoke` — one invocation of the function returned by
  `HandlerWrapper.wrap`: the keep-warm short circuit, the delegation to the
  user handler, and the catch-all failure boundary.  The user handler is
  abstracted by its outcome when invoked (return normally or throw a value);
  the completion callback by whether it throws on given arguments.  The
  invocation produces a trace of observable calls.
* `lambdaLoggerCtorValidate` / `getLoggerValidate` — the argument validation
  in `LambdaLogger` (lib/lambda-logger.js).
* `metricsCall` / `timespanCall` — the `metrics` and `timespan` methods the
  logger factory injects into the logger instance.
* `lcGet`, `dpGet`, `dpHas` — `LambdaConfig.get` (lib/lambda-config.js) and
  the dot-prop style dotted-path lookup it delegates to.

JavaScript strings are modelled as lists of characters, JS numbers as
integers (the values in play are millisecond timestamps), and the relevant
parts of the JS value universe as small inductive types.
-/

set_option maxHeartbeats 1000000

/-- JS strings, modelled as lists of characters. -/
abbrev JSString := List Char

/-- The character list underlying a Lean string literal. -/
def chars (s : String) : JSString := s.data

/-- JS `String.prototype.split` with a single-character separator:
`splitSeg sep s` cuts `s` at every occurrence of `sep`, keeping empty
segments, and always yields at least one segment (the empty string splits
into `[""]`). -/
def splitSeg (sep : Char) : JSString → List JSString
  | [] => [[]]
  | c :: rest =>
      match splitSeg sep rest with
      | [] => [[c]]
      | seg :: segs =>
          if c = sep then [] :: seg :: segs else (c :: seg) :: segs

/-- The unqualified-version sentinel checked by `_initAlias`. -/
def LATEST : JSString := chars "$LATEST"

/-- `HandlerWrapper._initAlias` (handler-wrapper.js lines 34-43):
`let alias = arn.split(':')[7];
 alias = (alias === undefined || alias === '$LATEST') ? '' : alias;`
(The surrounding timing/console output carries no information and is not
modelled.) -/
def resolveAlias (arn : JSString) : JSString :=
  match (splitSeg ':' arn).get? 7 with
  | none => []
  | some a => if a = LATEST then [] else a

-- Sanity checks against concrete invocation references.
example :
    resolveAlias (chars "arn:aws:lambda:us-east-1:123:function:foo:dev")
      = chars "dev" := by rfl
example :
    resolveAlias (chars "arn:aws:lambda:us-east-1:123:function:foo:$LATEST")
      = [] := by rfl
example : resolveAlias (chars "arn:aws:lambda") = [] := by rfl
example : resolveAlias [] = [] := by rfl

/-- Claim C1: the alias resolver splits the invocation-reference string on
`:` and takes the element at 0-based index 7: if the string has fewer than 8
colon-delimited segments, or that segment equals `$LATEST`, it returns the
empty string; otherwise it returns that segment verbatim. -/
theorem resolveAlias_split_seven (arn : JSString) :
    ((splitSeg ':' arn).length < 8 ∨ (splitSeg ':' arn).get? 7 = some LATEST →
      resolveAlias arn = []) ∧
    (∀ s, (splitSeg ':' arn).get? 7 = some s → s ≠ LATEST →
      resolveAlias arn = s) := by
  constructor
  · intro h
    unfold resolveAlias
    rcases h with h | h
    · have hnone : (splitSeg ':' arn).get? 7 = none :=
        List.get?_eq_none.mpr (by omega)
      rw [hnone]
    · rw [h]
      simp
  · intro s hs hne
    unfold resolveAlias
    rw [hs]
    simp [hne]

/-- Witness for `resolveAlias_split_seven` at concrete inputs: an arn whose
8th segment is `dev`, and an arn with fewer than 8 segments. -/
theorem resolveAlias_split_seven_witness :
    resolveAlias (chars "arn:aws:lambda:us-east-1:123:function:foo:dev")
      = chars "dev" ∧
    resolveAlias (chars "arn:aws:lambda") = [] :=
  ⟨(resolveAlias_split_seven
      (chars "arn:aws:lambda:us-east-1:123:function:foo:dev")).2
      (chars "dev") (by rfl) (by decide),
   (resolveAlias_split_seven (chars "arn:aws:lambda")).1
      (Or.inl (by decide))⟩

/-- The relevant parts of the JS value universe for record fields. -/
inductive JSVal where
  | str (s : JSString)
  | num (n : Int)
  | boolean (b : Bool)
  deriving DecidableEq, Repr

/-- A JS object viewed as an association list; `getProp` gives the first
binding for a key, so earlier pairs shadow later ones. -/
abbrev JSObj := List (JSString × JSVal)

/-- Property read on a `JSObj`. -/
def getProp (o : JSObj) (k : JSString) : Option JSVal :=
  match o with
  | [] => none
  | (key, v) :: rest => if key = k then some v else getProp rest k

/-- `Object.assign({}, props, overrides)`: a fresh object in which keys of
`overrides` take precedence over keys of `props`; neither argument is
modified.  With first-match lookup this is override-first concatenation. -/
def objMerge (props overrides : JSObj) : JSObj := overrides ++ props

/-- `logger.metrics` (lambda-logger.js lines 55-61):
`props = Object.assign({}, props, { metric, value }); logger.info(props);`
The result is the pair of (the record passed to `logger.info`, the caller's
`props` object as the caller sees it after the call — the code assigns into
a fresh `{}` target, so the caller's object is returned unchanged). -/
def metricsCall (metric : JSString) (value : JSVal) (props : JSObj) :
    JSObj × JSObj :=
  (objMerge props [(chars "metric", JSVal.str metric), (chars "value", value)],
   props)

/-- `metricStartTime || startTime` (lambda-logger.js line 64): JS `||`
falls back when the left operand is falsy, i.e. when the argument is
omitted/nullish or when it is the number `0`. -/
def timespanEffStart (startTime : Int) (metricStartTime : Option Int) : Int :=
  match metricStartTime with
  | none => startTime
  | some t => if t = 0 then startTime else t

/-- `logger.timespan` (lambda-logger.js lines 63-70):
`metricStartTime = metricStartTime || startTime;
 props = Object.assign({}, props, { metric, value: Date.now() - metricStartTime });
 logger.info(props);`
`startTime` is the factory's captured start time and `now` the value of
`Date.now()` at the call.  Result as in `metricsCall`. -/
def timespanCall (startTime now : Int) (metric : JSString)
    (metricStartTime : Option Int) (props : JSObj) : JSObj × JSObj :=
  (objMerge props
    [(chars "metric", JSVal.str metric),
     (chars "value", JSVal.num (now - timespanEffStart startTime metricStartTime))],
   props)

/-- A JS argument value, at the granularity the validation code inspects
(`typeof`, string length, numeric sign). -/
inductive JSArg where
  | func
  | str (s : JSString)
  | num (n : Int)
  | boolean (b : Bool)
  | nullV
  | undef
  | obj
  deriving DecidableEq, Repr

/-- `typeof x === 'function'`. -/
def isFunction : JSArg → Bool
  | .func => true
  | _ => false

/-- `typeof x === 'string' && x.length > 0`. -/
def isNonEmptyString : JSArg → Bool
  | .str s => !s.isEmpty
  | _ => false

/-- `typeof x === 'string'`. -/
def isString : JSArg → Bool
  | .str _ => true
  | _ => false

/-- `typeof x === 'number' && x > 0`. -/
def isPositiveNum : JSArg → Bool
  | .num n => decide (0 < n)
  | _ => false

/-- The wrap-time validation of `HandlerWrapper.wrap` (handler-wrapper.js
lines 82-89): a non-callable handler throws `Invalid handler specified
(arg #1)`, then a lambda name that is not a non-empty string throws
`Invalid lambda function name specified (arg #2)`. -/
def wrapValidate (handler lambdaName : JSArg) : Except JSString Unit :=
  if !(isFunction handler) then
    .error (chars "Invalid handler specified (arg #1)")
  else if !(isNonEmptyString lambdaName) then
    .error (chars "Invalid lambda function name specified (arg #2)")
  else
    .ok ()

/-- The `LambdaLogger` constructor validation (lambda-logger.js
lines 15-27). -/
def lambdaLoggerCtorValidate (appName logLevel : JSArg) :
    Except JSString Unit :=
  if !(isNonEmptyString appName) then
    .error (chars "Invalid appName specified (arg #1)")
  else if !(isNonEmptyString logLevel) then
    .error (chars "Invalid logLevel specified (arg #2)")
  else
    .ok ()

/-- The `LambdaLogger.getLogger` validation (lambda-logger.js
lines 39-48). -/
def getLoggerValidate (lambdaName aliasArg startTime : JSArg) :
    Except JSString Unit :=
  if !(isNonEmptyString lambdaName) then
    .error (chars "Invalid lambdaName specified (arg #1)")
  else if !(isString aliasArg) then
    .error (chars "Invalid alias specified (arg #2)")
  else if !(isPositiveNum startTime) then
    .error (chars "Invalid startTime specified (arg #3)")
  else
    .ok ()

/-- The full logger-factory precondition check: the constructor runs first
(its throw prevents `getLogger` from being reached), then `getLogger`. -/
def createLoggerValidate (appName logLevel lambdaName aliasArg startTime : JSArg) :
    Except JSString Unit :=
  match lambdaLoggerCtorValidate appName logLevel with
  | .error e => .error e
  | .ok _ => getLoggerValidate lambdaName aliasArg startTime

/-- A value thrown by JS code, at the granularity the catch block inspects:
either an `Error` instance carrying its `.message`, or any other value
identified by its string form (what `${ex}` interpolates to). -/
inductive Thrown where
  | errObj (message : JSString)
  | nonError (stringForm : JSString)
  deriving DecidableEq, Repr

/-- `(ex instanceof Error) ? ex.message : ex`, as interpolated into the
template literal of the catch block. -/
def thrownMessage : Thrown → JSString
  | .errObj m => m
  | .nonError s => s

/-- The execution-context object literal `{ logger, env: alias, alias,
config }` passed as the fourth argument to the user handler
(handler-wrapper.js lines 107-112).  `logger` and `config` are opaque
collaborator instances, identified by tags. -/
structure ExecContext where
  logger : Nat
  env : JSString
  «alias» : JSString
  config : Nat
  deriving DecidableEq, Repr

/-- The observable calls a wrapped invocation makes:
timespan-metric emissions and informational/error log calls on the logger,
invocations of the completion callback (with the message of the `Error`
passed, or `none` for `callback(null)`), and the invocation of the user
handler with the tags of the event, context and callback objects it was
handed plus the execution context. -/
inductive Ev where
  | timespanEmit (metric : JSString)
  | infoEmit (message : JSString)
  | errorEmit (ex : Thrown) (diagnostic : JSString)
  | cbInvoke (cbTag : Nat) (err : Option JSString)
  | handlerInvoke (eventTag contextTag cbTag : Nat) (ctx : ExecContext)
  deriving DecidableEq, Repr

/-- The lambda event object: the truthiness of its `__LAMBDA_KEEP_WARM`
field, and an identity tag. -/
structure EventObj where
  keepWarm : Bool
  tag : Nat
  deriving DecidableEq, Repr

/-- The lambda context object: its `invokedFunctionArn` string, and an
identity tag. -/
structure ContextObj where
  invokedFunctionArn : JSString
  tag : Nat
  deriving DecidableEq, Repr

/-- The metric name used by the guard. -/
def EXECUTION_TIME : JSString := chars "EXECUTION_TIME"

/-- The informational line logged on the keep-warm path. -/
def keepWarmNotice : JSString :=
  chars "Keep warm request received. Actual lambda handler will not be invoked"

/-- The diagnostic text passed to `logger.error` in the catch block (the
typo is the source's). -/
def unhandledDiagnostic : JSString :=
  chars "Unandled error thrown by lambda handler. This error must be handled within the lambda function handler."

/-- The fixed message header of the `Error` synthesized in the catch
block. -/
def unhandledHeader : JSString :=
  chars "[Error] Unhandled error executing lambda. Details: "

/-- One invocation of the function returned by `HandlerWrapper.wrap`
(handler-wrapper.js lines 91-120).  The user handler is abstracted by
`handlerOutcome`: what it does when invoked (return normally, or throw a
value); the completion callback by `cbBeh`: the value it throws, if any,
when invoked with a given error argument.  `loggerId`/`configId` tag the
per-invocation logger and config collaborator instances.  Returns the trace
of observable calls, in order, together with the exception escaping the
wrapped handler, if any:

  try {
    if (event.__LAMBDA_KEEP_WARM) {
      logger.timespan('EXECUTION_TIME');
      logger.info('Keep warm request received. ...');
      callback(null);
    } else {
      handler(event, context, callback, { logger, env: alias, alias, config });
    }
  } catch (ex) {
    const message = (ex instanceof Error) ? ex.message : ex;
    logger.error(ex, 'Unandled error thrown by lambda handler. ...');
    logger.timespan('EXECUTION_TIME');
    callback(new Error(`[Error] Unhandled error executing lambda. Details: ` + message));
  }

A call of the callback is recorded before any exception it raises takes
effect; an exception raised by the callback inside the catch block escapes
the wrapped handler uncaught. -/
def wrapInvoke (handlerOutcome : Except Thrown Unit)
    (cbBeh : Option JSString → Option Thrown) (cbTag : Nat)
    (event : EventObj) (context : ContextObj)
    (loggerId configId : Nat) : List Ev × Option Thrown :=
  let a := resolveAlias context.invokedFunctionArn
  let tryRun : List Ev × Option Thrown :=
    if event.keepWarm then
      ([Ev.timespanEmit EXECUTION_TIME, Ev.infoEmit keepWarmNotice,
        Ev.cbInvoke cbTag none],
       cbBeh none)
    else
      ([Ev.handlerInvoke event.tag context.tag cbTag ⟨loggerId, a, a, configId⟩],
       match handlerOutcome with
       | .ok _ => none
       | .error ex => some ex)
  match tryRun with
  | (evs, none) => (evs, none)
  | (evs, some ex) =>
      let cbErr := unhandledHeader ++ thrownMessage ex
      (evs ++ [Ev.errorEmit ex unhandledDiagnostic,
               Ev.timespanEmit EXECUTION_TIME,
               Ev.cbInvoke cbTag (some cbErr)],
       cbBeh (some cbErr))

/-- Number of events in a trace satisfying `p`. -/
def countEv (p : Ev → Bool) (tr : List Ev) : Nat := (tr.filter p).length

/-- Is this event an invocation of the completion callback? -/
def isCbInvoke : Ev → Bool
  | .cbInvoke _ _ => true
  | _ => false

/-- Is this event an invocation of the user handler? -/
def isHandlerInvoke : Ev → Bool
  | .handlerInvoke _ _ _ _ => true
  | _ => false

/-- Is this event a `logger.error` call? -/
def isErrorEmit : Ev → Bool
  | .errorEmit _ _ => true
  | _ => false

/-- Is this event a `logger.info` call? -/
def isInfoEmit : Ev → Bool
  | .infoEmit _ => true
  | _ => false

/-- Is this event a `logger.timespan` call? -/
def isTimespanEmit : Ev → Bool
  | .timespanEmit _ => true
  | _ => false

/-- Claim C2: for every synchronously thrown value raised by the user
handler during a (non-keep-warm) invocation, the guard catches it and
invokes the completion callback exactly once, with a new error whose message
is `[Error] Unhandled error executing lambda. Details: ` followed by the
thrown value's `.message` when it is an `Error` and by its string form
otherwise; `logger.error` is invoked exactly once, before the callback. -/
theorem wrap_sync_throw_reports (ex : Thrown)
    (cbBeh : Option JSString → Option Thrown)
    (cbTag etag : Nat) (context : ContextObj) (lid cid : Nat) :
    let tr := (wrapInvoke (.error ex) cbBeh cbTag ⟨false, etag⟩ context
                lid cid).1
    tr = [Ev.handlerInvoke etag context.tag cbTag
            ⟨lid, resolveAlias context.invokedFunctionArn,
                  resolveAlias context.invokedFunctionArn, cid⟩,
          Ev.errorEmit ex unhandledDiagnostic,
          Ev.timespanEmit EXECUTION_TIME,
          Ev.cbInvoke cbTag (some (unhandledHeader ++ thrownMessage ex))] ∧
    countEv isCbInvoke tr = 1 ∧
    countEv isErrorEmit tr = 1 :=
  ⟨rfl, rfl, rfl⟩

/-- Claim C3: for every event whose `__LAMBDA_KEEP_WARM` field is truthy
(and a completion callback that returns normally on `callback(null)`), the
wrapped handler never invokes the user handler — whatever that handler
would have done — invokes `callback(null)` exactly once, and emits exactly
one `EXECUTION_TIME` timespan record plus exactly one informational log
line. -/
theorem wrap_keep_warm_short_circuit (handlerOutcome : Except Thrown Unit)
    (cbBeh : Option JSString → Option Thrown)
    (cbTag etag : Nat) (context : ContextObj) (lid cid : Nat)
    (hcb : cbBeh none = none) :
    let tr := (wrapInvoke handlerOutcome cbBeh cbTag ⟨true, etag⟩ context
                lid cid).1
    countEv isHandlerInvoke tr = 0 ∧
    countEv isCbInvoke tr = 1 ∧
    Ev.cbInvoke cbTag none ∈ tr ∧
    countEv isTimespanEmit tr = 1 ∧
    Ev.timespanEmit EXECUTION_TIME ∈ tr ∧
    countEv isInfoEmit tr = 1 := by
  simp only [wrapInvoke, hcb]
  refine ⟨rfl, rfl, ?_, rfl, ?_, rfl⟩ <;> simp

/-- Witness for `wrap_keep_warm_short_circuit`: a keep-warm invocation with
a handler that would throw, and a callback that never throws. -/
theorem wrap_keep_warm_short_circuit_witness :
    let tr := (wrapInvoke (.error (.errObj (chars "boom")))
                (fun _ => none) 0 ⟨true, 1⟩ ⟨chars "a:b", 2⟩ 3 4).1
    countEv isHandlerInvoke tr = 0 ∧
    countEv isCbInvoke tr = 1 ∧
    Ev.cbInvoke 0 none ∈ tr ∧
    countEv isTimespanEmit tr = 1 ∧
    Ev.timespanEmit EXECUTION_TIME ∈ tr ∧
    countEv isInfoEmit tr = 1 :=
  wrap_keep_warm_short_circuit (.error (.errObj (chars "boom")))
    (fun _ => none) 0 1 ⟨chars "a:b", 2⟩ 3 4 rfl

/-- Claim C4: for a user handler that returns normally, one invocation of
the wrapped handler calls it exactly once, with the very event, context and
callback objects the wrapped handler received, and an execution context
with exactly the fields `{ logger, env, alias, config }` in which `env` and
`alias` both equal the alias resolved from the context's invocation
reference; on this success path the guard itself never invokes the
completion callback. -/
theorem wrap_success_delegates (cbBeh : Option JSString → Option Thrown)
    (cbTag etag : Nat) (context : ContextObj) (lid cid : Nat) :
    let tr := (wrapInvoke (.ok ()) cbBeh cbTag ⟨false, etag⟩ context
                lid cid).1
    tr = [Ev.handlerInvoke etag context.tag cbTag
            ⟨lid, resolveAlias context.invokedFunctionArn,
                  resolveAlias context.invokedFunctionArn, cid⟩] ∧
    countEv isHandlerInvoke tr = 1 ∧
    countEv isCbInvoke tr = 0 ∧
    (wrapInvoke (.ok ()) cbBeh cbTag ⟨false, etag⟩ context lid cid).2 = none :=
  ⟨rfl, rfl, rfl, rfl⟩

/-- Claim C10: the keep-warm callback invocation executes inside the
guard's try block, so a completion callback that itself throws on
`callback(null)` is caught by the guard and invoked a second time with the
synthesized unhandled-error — the callback runs twice within a single
keep-warm invocation. -/
theorem wrap_keep_warm_double_callback (ex : Thrown)
    (handlerOutcome : Except Thrown Unit)
    (cbTag etag : Nat) (context : ContextObj) (lid cid : Nat) :
    let cbBeh : Option JSString → Option Thrown := fun e =>
      match e with
      | none => some ex
      | some _ => none
    let tr := (wrapInvoke handlerOutcome cbBeh cbTag ⟨true, etag⟩ context
                lid cid).1
    countEv isCbInvoke tr = 2 ∧
    tr = [Ev.timespanEmit EXECUTION_TIME,
          Ev.infoEmit keepWarmNotice,
          Ev.cbInvoke cbTag none,
          Ev.errorEmit ex unhandledDiagnostic,
          Ev.timespanEmit EXECUTION_TIME,
          Ev.cbInvoke cbTag (some (unhandledHeader ++ thrownMessage ex))] :=
  ⟨rfl, rfl⟩

/-- Claim C5: `wrap(handler, lambdaName)` throws an invalid-argument error
synchronously at wrap time for every non-callable handler and for every
lambda name that is not a string or is the empty string, and does not throw
for any callable handler combined with any non-empty string name. -/
theorem wrap_validation (handler lambdaName : JSArg) :
    (isFunction handler = false →
      wrapValidate handler lambdaName
        = .error (chars "Invalid handler specified (arg #1)")) ∧
    (isFunction handler = true → isNonEmptyString lambdaName = false →
      wrapValidate handler lambdaName
        = .error (chars "Invalid lambda function name specified (arg #2)")) ∧
    (isFunction handler = true → isNonEmptyString lambdaName = true →
      wrapValidate handler lambdaName = .ok ()) := by
  refine ⟨?_, ?_, ?_⟩ <;> intros <;> simp [wrapValidate, *]

/-- Witness for `wrap_validation`: a numeric handler is rejected, a
callable handler with an empty name is rejected, and a callable handler
with a non-empty name is accepted. -/
theorem wrap_validation_witness :
    wrapValidate (JSArg.num 3) (JSArg.str (chars "fn"))
      = .error (chars "Invalid handler specified (arg #1)") ∧
    wrapValidate JSArg.func (JSArg.str [])
      = .error (chars "Invalid lambda function name specified (arg #2)") ∧
    wrapValidate JSArg.func (JSArg.str (chars "fn")) = .ok () :=
  ⟨(wrap_validation (JSArg.num 3) (JSArg.str (chars "fn"))).1 (by decide),
   (wrap_validation JSArg.func (JSArg.str [])).2.1 (by decide) (by decide),
   (wrap_validation JSArg.func (JSArg.str (chars "fn"))).2.2
     (by decide) (by decide)⟩

/-- Claim C7: the logger factory fails with an invalid-argument error
identifying the offending parameter and position whenever `appName`,
`logLevel` or `lambdaName` is not a non-empty string, `alias` is not a
string (the empty string is accepted), or `startTime` is not a positive
number; when all five preconditions hold it raises no precondition
error. -/
theorem createLogger_validation
    (appName logLevel lambdaName aliasArg startTime : JSArg) :
    (isNonEmptyString appName = false →
      createLoggerValidate appName logLevel lambdaName aliasArg startTime
        = .error (chars "Invalid appName specified (arg #1)")) ∧
    (isNonEmptyString appName = true → isNonEmptyString logLevel = false →
      createLoggerValidate appName logLevel lambdaName aliasArg startTime
        = .error (chars "Invalid logLevel specified (arg #2)")) ∧
    (isNonEmptyString appName = true → isNonEmptyString logLevel = true →
      isNonEmptyString lambdaName = false →
      createLoggerValidate appName logLevel lambdaName aliasArg startTime
        = .error (chars "Invalid lambdaName specified (arg #1)")) ∧
    (isNonEmptyString appName = true → isNonEmptyString logLevel = true →
      isNonEmptyString lambdaName = true → isString aliasArg = false →
      createLoggerValidate appName logLevel lambdaName aliasArg startTime
        = .error (chars "Invalid alias specified (arg #2)")) ∧
    (isNonEmptyString appName = true → isNonEmptyString logLevel = true →
      isNonEmptyString lambdaName = true → isString aliasArg = true →
      isPositiveNum startTime = false →
      createLoggerValidate appName logLevel lambdaName aliasArg startTime
        = .error (chars "Invalid startTime specified (arg #3)")) ∧
    (isNonEmptyString appName = true → isNonEmptyString logLevel = true →
      isNonEmptyString lambdaName = true → isString aliasArg = true →
      isPositiveNum startTime = true →
      createLoggerValidate appName logLevel lambdaName aliasArg startTime
        = .ok ()) := by
  refine ⟨?_, ?_, ?_, ?_, ?_, ?_⟩ <;> intros <;>
    simp [createLoggerValidate, lambdaLoggerCtorValidate, getLoggerValidate, *]

/-- Witness for `createLogger_validation`: each of the five precondition
violations at a concrete input, and one fully valid input (note the empty
alias string is accepted). -/
theorem createLogger_validation_witness :
    createLoggerValidate (JSArg.str []) (JSArg.str (chars "info"))
        (JSArg.str (chars "fn")) (JSArg.str []) (JSArg.num 7)
      = .error (chars "Invalid appName specified (arg #1)") ∧
    createLoggerValidate (JSArg.str (chars "app")) JSArg.undef
        (JSArg.str (chars "fn")) (JSArg.str []) (JSArg.num 7)
      = .error (chars "Invalid logLevel specified (arg #2)") ∧
    createLoggerValidate (JSArg.str (chars "app")) (JSArg.str (chars "info"))
        JSArg.nullV (JSArg.str []) (JSArg.num 7)
      = .error (chars "Invalid lambdaName specified (arg #1)") ∧
    createLoggerValidate (JSArg.str (chars "app")) (JSArg.str (chars "info"))
        (JSArg.str (chars "fn")) (JSArg.num 0) (JSArg.num 7)
      = .error (chars "Invalid alias specified (arg #2)") ∧
    createLoggerValidate (JSArg.str (chars "app")) (JSArg.str (chars "info"))
        (JSArg.str (chars "fn")) (JSArg.str []) (JSArg.num 0)
      = .error (chars "Invalid startTime specified (arg #3)") ∧
    createLoggerValidate (JSArg.str (chars "app")) (JSArg.str (chars "info"))
        (JSArg.str (chars "fn")) (JSArg.str []) (JSArg.num 7)
      = .ok () :=
  ⟨(createLogger_validation _ _ _ _ _).1 (by decide),
   (createLogger_validation _ _ _ _ _).2.1 (by decide) (by decide),
   (createLogger_validation _ _ _ _ _).2.2.1 (by decide) (by decide)
     (by decide),
   (createLogger_validation _ _ _ _ _).2.2.2.1 (by decide) (by decide)
     (by decide) (by decide),
   (createLogger_validation _ _ _ _ _).2.2.2.2.1 (by decide) (by decide)
     (by decide) (by decide) (by decide),
   (createLogger_validation _ _ _ _ _).2.2.2.2.2 (by decide) (by decide)
     (by decide) (by decide) (by decide)⟩

/-- On a record merged from `props` and `{ metric, value }`, the `metric`
field is the override. -/
theorem getProp_record_metric (m : JSString) (v : JSVal) (props : JSObj) :
    getProp (objMerge props [(chars "metric", JSVal.str m), (chars "value", v)])
      (chars "metric") = some (JSVal.str m) := by
  simp [objMerge, getProp]

/-- On a record merged from `props` and `{ metric, value }`, the `value`
field is the override. -/
theorem getProp_record_value (m : JSString) (v : JSVal) (props : JSObj) :
    getProp (objMerge props [(chars "metric", JSVal.str m), (chars "value", v)])
      (chars "value") = some v := by
  have h : chars "metric" ≠ chars "value" := by decide
  simp [objMerge, getProp, h]

/-- On a record merged from `props` and `{ metric, value }`, every other
key reads through to `props`. -/
theorem getProp_record_other (m : JSString) (v : JSVal) (props : JSObj)
    (k : JSString) (hm : k ≠ chars "metric") (hv : k ≠ chars "value") :
    getProp (objMerge props [(chars "metric", JSVal.str m), (chars "value", v)]) k
      = getProp props k := by
  simp [objMerge, getProp, Ne.symm hm, Ne.symm hv]

/-- Counterexample to claim C6 as stated: with the factory start time 5 and
the clock at 9, calling `timespan` with the provided (non-nullish)
reference start time `0` logs `value` 4 = 9 - 5 — the code falls back to
the factory start time on every falsy argument, including the number 0 —
whereas the claim demands 9 - 0 = 9. -/
theorem timespan_zero_ref_counterexample :
    getProp (timespanCall 5 9 (chars "M") (some 0) []).1 (chars "value")
      = some (JSVal.num 4) ∧
    some (JSVal.num 4) ≠ some (JSVal.num (9 - 0)) := by decide

/-- Claim C6 amended: `timespan(metricName, referenceStartTime?,
extraProps?)` logs, via the informational log method, a single record
merging `extraProps` with `{ metric: metricName, value: elapsed }`, where
elapsed = now - referenceStartTime when referenceStartTime is provided and
truthy (nonzero), and now - the factory's captured startTime when
referenceStartTime is absent, nullish, or falsy (the number 0). -/
theorem timespan_elapsed_record (st now : Int) (m : JSString) (props : JSObj) :
    (∀ t : Int, t ≠ 0 →
      getProp (timespanCall st now m (some t) props).1 (chars "value")
        = some (JSVal.num (now - t))) ∧
    getProp (timespanCall st now m none props).1 (chars "value")
      = some (JSVal.num (now - st)) ∧
    getProp (timespanCall st now m (some 0) props).1 (chars "value")
      = some (JSVal.num (now - st)) ∧
    (∀ mst, getProp (timespanCall st now m mst props).1 (chars "metric")
      = some (JSVal.str m)) ∧
    (∀ mst k, k ≠ chars "metric" → k ≠ chars "value" →
      getProp (timespanCall st now m mst props).1 k = getProp props k) := by
  refine ⟨?_, ?_, ?_, ?_, ?_⟩
  · intro t ht
    have := getProp_record_value m
      (JSVal.num (now - timespanEffStart st (some t))) props
    simpa [timespanCall, timespanEffStart, ht] using this
  · exact getProp_record_value m (JSVal.num (now - st)) props
  · have := getProp_record_value m
      (JSVal.num (now - timespanEffStart st (some 0))) props
    simpa [timespanCall, timespanEffStart] using this
  · intro mst
    exact getProp_record_metric m _ props
  · intro mst k hm hv
    exact getProp_record_other m _ props k hm hv

/-- Witness for `timespan_elapsed_record` at concrete inputs: a nonzero
provided reference time is used as-is, and an unrelated extra property
reads through the merged record. -/
theorem timespan_elapsed_record_witness :
    getProp (timespanCall 5 9 (chars "M") (some 2) []).1 (chars "value")
      = some (JSVal.num 7) ∧
    getProp (timespanCall 5 9 (chars "M") none
        [(chars "p", JSVal.num 1)]).1 (chars "p")
      = some (JSVal.num 1) :=
  ⟨(timespan_elapsed_record 5 9 (chars "M") []).1 2 (by decide),
   (timespan_elapsed_record 5 9 (chars "M") [(chars "p", JSVal.num 1)]).2.2.2.2
     none (chars "p") (by decide) (by decide)⟩

/-- Claim C9: for every `extraProps` object passed to the logger's
`metrics` or `timespan` methods — including one that itself contains
`metric` or `value` keys — the emitted record's `metric` field equals the
metric-name argument and its `value` field equals the computed value (the
methods' own fields override same-named keys in `extraProps`), and the
caller's `extraProps` object is never mutated. -/
theorem logger_records_override_pure (m : JSString) (v : JSVal)
    (props : JSObj) (st now : Int) (mst : Option Int) :
    getProp (metricsCall m v props).1 (chars "metric") = some (JSVal.str m) ∧
    getProp (metricsCall m v props).1 (chars "value") = some v ∧
    (metricsCall m v props).2 = props ∧
    getProp (timespanCall st now m mst props).1 (chars "metric")
      = some (JSVal.str m) ∧
    getProp (timespanCall st now m mst props).1 (chars "value")
      = some (JSVal.num (now - timespanEffStart st mst)) ∧
    (timespanCall st now m mst props).2 = props :=
  ⟨getProp_record_metric m v props,
   getProp_record_value m v props,
   rfl,
   getProp_record_metric m _ props,
   getProp_record_value m _ props,
   rfl⟩

/-- A hierarchical configuration value: a primitive, or an object mapping
string keys to nested configuration values. -/
inductive ConfigVal where
  | prim (v : JSVal)
  | node (entries : List (JSString × ConfigVal))

/-- First binding of a key in an object's entry list. -/
def lookupEntry (k : JSString) : List (JSString × ConfigVal) → Option ConfigVal
  | [] => none
  | (key, v) :: rest => if key = k then some v else lookupEntry k rest

/-- dot-prop `get(obj, path)` after splitting the path at the dots: walk
the path segments; `undefined` as soon as a segment is missing or a
non-object is indexed. -/
def dpGet : List JSString → ConfigVal → Option ConfigVal
  | [], c => some c
  | _ :: _, .prim _ => none
  | k :: rest, .node es =>
      match lookupEntry k es with
      | none => none
      | some v => dpGet rest v

/-- dot-prop `has(obj, path)`: does a property exist at the path? -/
def dpHas : List JSString → ConfigVal → Bool
  | [], _ => true
  | _ :: _, .prim _ => false
  | k :: rest, .node es =>
      match lookupEntry k es with
      | none => false
      | some v => dpHas rest v

/-- `has` agrees with definedness of `get`. -/
theorem dpHas_eq_isSome (p : List JSString) (c : ConfigVal) :
    dpHas p c = (dpGet p c).isSome := by
  induction p generalizing c with
  | nil => rfl
  | cons k rest ih =>
      cases c with
      | prim v => rfl
      | node es =>
          simp only [dpHas, dpGet]
          cases lookupEntry k es with
          | none => rfl
          | some v => exact ih v

/-- `LambdaConfig.get` (lambda-config.js lines 36-45):

  if (typeof key !== 'string' || key.length <= 0) return;
  key = `${this._alias}.${key}`;
  if (!_dp.has(this._config, key)) return;
  return _dp.get(this._config, key);

`aliasV` is the instance's `_alias` and `store` its `_config` backing
object. -/
def lcGet (aliasV : JSString) (store : ConfigVal) (key : JSString) :
    Option ConfigVal :=
  if key.isEmpty then none
  else
    let path := splitSeg '.' (aliasV ++ '.' :: key)
    if dpHas path store then dpGet path store else none

/-- Claim C8: for every non-empty string key, `get(key)` looks up the
dotted path `<alias>.<key>` — the instance's alias prefixed to the key —
in the backing store, and returns `undefined`, without raising an error,
whenever no property exists at that path. -/
theorem lcGet_prefixed_lookup (aliasV : JSString) (store : ConfigVal)
    (key : JSString) (h : key ≠ []) :
    lcGet aliasV store key
      = dpGet (splitSeg '.' (aliasV ++ '.' :: key)) store ∧
    (dpGet (splitSeg '.' (aliasV ++ '.' :: key)) store = none →
      lcGet aliasV store key = none) := by
  have hempty : key.isEmpty = false := by
    cases key with
    | nil => exact absurd rfl h
    | cons c rest => rfl
  constructor
  · unfold lcGet
    rw [hempty]
    simp only [Bool.false_eq_true, if_false, dpHas_eq_isSome]
    cases hd : dpGet (splitSeg '.' (aliasV ++ '.' :: key)) store with
    | none => simp [hd]
    | some v => simp [hd]
  · intro hnone
    unfold lcGet
    rw [hempty]
    simp [dpHas_eq_isSome, hnone]

/-- Witness for `lcGet_prefixed_lookup`: in a store holding
`{ dev: { log: "info" } }` under alias `dev`, the key `log` resolves via the
path `dev.log`, and the missing key `db` yields `undefined`. -/
theorem lcGet_prefixed_lookup_witness :
    lcGet (chars "dev")
        (ConfigVal.node
          [(chars "dev",
            ConfigVal.node [(chars "log", ConfigVal.prim (JSVal.str (chars "info")))])])
        (chars "log")
      = some (ConfigVal.prim (JSVal.str (chars "info"))) ∧
    lcGet (chars "dev")
        (ConfigVal.node
          [(chars "dev",
            ConfigVal.node [(chars "log", ConfigVal.prim (JSVal.str (chars "info")))])])
        (chars "db")
      = none := by
  have h1 := lcGet_prefixed_lookup (chars "dev")
    (ConfigVal.node
      [(chars "dev",
        ConfigVal.node [(chars "log", ConfigVal.prim (JSVal.str (chars "info")))])])
    (chars "log") (by decide)
  have h2 := lcGet_prefixed_lookup (chars "dev")
    (ConfigVal.node
      [(chars "dev",
        ConfigVal.node [(chars "log", ConfigVal.prim (JSVal.str (chars "info")))])])
    (chars "db") (by decide)
  exact ⟨h1.1.trans (by rfl), h2.2 (by rfl)⟩
